import Mathlib

/-!
Shallow embedding of the state-capture core of the `multi-agent-browsing`
repository: the capture policy and step recorder (`src/state_capture.py` and
its near-duplicate `src/agent_b/state_capture.py`), the action classifier
(`src/agent_b/browser_agent.py`, `src/browser_agent_wrapper.py`) and the run
orchestrator loop (`src/task_runner.py`).

Python strings are `String`; `Optional[T]` is `Option T`.  Python truthiness
of an optional string (`if self.previous_url:`) is modelled explicitly:
`none` and `some ""` are falsy.  Exceptions are modelled with `Except`.
-/

namespace MultiAgentBrowsing

/-- Python truthiness of an `Optional[str]`: `None` and `""` are falsy. -/
def truthyOptStr : Option String → Bool
  | none => false
  | some s => s ≠ ""

/-- Lower-case a string character by character (Python `str.lower()` for the
ASCII texts used by the heuristics). -/
def lowerStr (s : String) : String :=
  String.mk (s.data.map Char.toLower)

/-- `startsWithList a b` : the character list `b` starts with `a`. -/
def startsWithList : List Char → List Char → Bool
  | [], _ => true
  | _ :: _, [] => false
  | a :: as, b :: bs => a == b && startsWithList as bs

/-- `containsList hay needle`: `needle` occurs contiguously in `hay`
(Python `needle in hay`). -/
def containsList (hay needle : List Char) : Bool :=
  match hay with
  | [] => startsWithList needle []
  | _ :: t => startsWithList needle hay || containsList t needle

/-- Python substring test `needle in hay` on strings. -/
def containsStr (hay needle : String) : Bool :=
  containsList hay.data needle.data

/-- Python slicing `s[:n]`. -/
def strTake (s : String) (n : Nat) : String :=
  String.mk (s.data.take n)

/-- `models.TaskStatus` (and the identical enum in `agent_b/task_runner.py`). -/
inductive TaskStatus
  | success
  | timeout
  | failure
  | in_progress
deriving Repr, DecidableEq

/-- `models.ActionType` (and the identical enum in `agent_b/browser_agent.py`). -/
inductive ActionType
  | CLICK
  | TYPE
  | NAVIGATE
  | SCROLL
  | WAIT
  | OTHER
deriving Repr, DecidableEq

/-- The `.value` of an `ActionType` member. -/
def ActionType.value : ActionType → String
  | .CLICK => "click"
  | .TYPE => "type"
  | .NAVIGATE => "navigate"
  | .SCROLL => "scroll"
  | .WAIT => "wait"
  | .OTHER => "other"

/-- `models.ActionFromPrevious`. -/
structure ActionFromPrevious where
  type : ActionType
  description : String
  element_index : Option Int
deriving Repr, DecidableEq

/-- The part of browser-use's DOM state the capture policy reads:
`selector_map` (modelled by its key list, only emptiness matters) and the
result of `llm_representation()`. -/
structure DomState where
  selector_map : List Nat
  llm_repr : String
deriving Repr, DecidableEq

/-- The fields of browser-use's `BrowserStateSummary` the core reads.
`screenshot` is the optional base64 payload (`none`/`some ""` falsy). -/
structure BrowserStateSummary where
  url : String
  title : String
  screenshot : Option String
  dom_state : Option DomState
deriving Repr, DecidableEq

/-- `models.Step` (timestamp omitted: external clock). -/
structure Step where
  step_index : Nat
  screenshot_path : String
  url : String
  has_unique_url : Bool
  action_from_previous : Option ActionFromPrevious
  state_description : String
  llm_enhanced_instruction : Option String
  llm_context : Option String
deriving Repr, DecidableEq

/-- The mutable cursor of `StateCapture.__init__`: `step_index = 0`,
`previous_url = None`. -/
structure StateCapture where
  step_index : Nat
  previous_url : Option String
deriving Repr, DecidableEq

/-- The fresh recorder built by `StateCapture.__init__`. -/
def StateCapture.init : StateCapture := { step_index := 0, previous_url := none }

/-- `StateCapture._has_modal_or_dialog` (src/state_capture.py lines 74-95):
false when `dom_state` is absent or its `selector_map` is empty, otherwise
scans the lower-cased `llm_representation()` text for the fixed markers. -/
def hasModalOrDialog (state : BrowserStateSummary) : Bool :=
  match state.dom_state with
  | none => false
  | some dom =>
    if dom.selector_map.isEmpty then false
    else
      let dom_text := lowerStr dom.llm_repr
      let modal_indicators := ["role=dialog", "role=alertdialog", "modal", "dialog"]
      modal_indicators.any (fun ind => containsStr dom_text ind)

/-- `StateCapture.should_capture` (src/state_capture.py lines 27-72). -/
def shouldCapture (self : StateCapture) (state : BrowserStateSummary)
    (is_initial is_final : Bool) (action : Option ActionFromPrevious) : Bool :=
  if is_initial then true
  else if is_final then true
  else
    let url_changed :=
      match self.previous_url with
      | none => false
      | some p => state.url ≠ p
    if url_changed then true
    else if hasModalOrDialog state then true
    else
      match action with
      | some a =>
        if a.type = ActionType.CLICK ∨ a.type = ActionType.TYPE then true
        else if a.type = ActionType.NAVIGATE then true
        else false
      | none => false

/-- `f"step_{step_index:03d}"` zero-padding. -/
def pad3 (n : Nat) : String :=
  if n < 10 then "00" ++ toString n
  else if n < 100 then "0" ++ toString n
  else toString n

/-- `StateCapture._save_screenshot` (src/state_capture.py lines 136-156):
raises `ValueError` when the state's screenshot is falsy, otherwise writes
`step_{index:03d}.png` and returns its path (relative to the output dir). -/
def saveScreenshot (state : BrowserStateSummary) (step_index : Nat) :
    Except String String :=
  if ¬ truthyOptStr state.screenshot then
    Except.error ("No screenshot in browser state for step " ++ toString step_index)
  else
    Except.ok ("step_" ++ pad3 step_index ++ ".png")

/-- `StateCapture.capture_step` (src/state_capture.py lines 97-134).  On the
screenshot error the recorder state is unchanged (the raise precedes both
mutations in the source); on success it returns the built `Step` and the
updated recorder (`previous_url := state.url`, `step_index += 1`).
`has_unique_url` mirrors the source's
`state.url != self.previous_url if self.previous_url else True`
(Python truthiness: an unset OR empty previous URL yields `True`). -/
def captureStep (self : StateCapture) (state : BrowserStateSummary)
    (action : Option ActionFromPrevious) (state_description : String) :
    Except String (Step × StateCapture) :=
  let has_unique_url :=
    if truthyOptStr self.previous_url then
      match self.previous_url with
      | some p => decide (state.url ≠ p)
      | none => true
    else true
  match saveScreenshot state self.step_index with
  | Except.error e => Except.error e
  | Except.ok screenshot_path =>
    let step : Step :=
      { step_index := self.step_index
        screenshot_path := screenshot_path
        url := state.url
        has_unique_url := has_unique_url
        action_from_previous := action
        state_description :=
          if state_description = "" then "Step " ++ toString self.step_index
          else state_description
        llm_enhanced_instruction := none
        llm_context := none }
    Except.ok (step, { step_index := self.step_index + 1, previous_url := some state.url })

namespace AgentB

/-- `StateCapture.should_capture` of the duplicate implementation
(src/agent_b/state_capture.py lines 54-84): same recorder state type, no
modal/dialog heuristic, `CLICK/TYPE/NAVIGATE` checked in one list. -/
def shouldCapture (self : StateCapture) (state : BrowserStateSummary)
    (is_initial is_final : Bool) (action : Option ActionFromPrevious) : Bool :=
  if is_initial ∨ is_final then true
  else if (match self.previous_url with
           | none => false
           | some p => state.url ≠ p) then true
  else
    match action with
    | some a =>
      if a.type = ActionType.CLICK ∨ a.type = ActionType.TYPE ∨
         a.type = ActionType.NAVIGATE then true
      else false
    | none => false

/-- `BrowserAgent._detect_type_from_text` (src/agent_b/browser_agent.py lines
217-228): keyword match on the lower-cased text, first match wins, `none`
means no keyword matched. -/
def detectTypeFromText (text : String) : Option ActionType :=
  let text_lower := lowerStr text
  if containsStr text_lower "click" then some ActionType.CLICK
  else if containsStr text_lower "type" || containsStr text_lower "input" then
    some ActionType.TYPE
  else if containsStr text_lower "navigate" || containsStr text_lower "goto" then
    some ActionType.NAVIGATE
  else if containsStr text_lower "scroll" then some ActionType.SCROLL
  else none

/-- A raw automation-engine action object as `_detect_type_from_action`
inspects it: its `model_fields` key set (with a flag for `hasattr`), its
class name, and the `description` / `reasoning` / `index` attributes read by
`get_last_action` (`none` = attribute absent). -/
structure RawAction where
  has_model_fields : Bool
  model_fields : List String
  class_name : String
  description : Option String
  reasoning : Option String
  index : Option Int
deriving Repr, DecidableEq

/-- `BrowserAgent._detect_type_from_action` (src/agent_b/browser_agent.py
lines 230-255): capability dispatch over `model_fields`, then class-name
substring fallback, else `OTHER`. -/
def detectTypeFromAction (action : RawAction) : ActionType :=
  let from_fields : Option ActionType :=
    if ¬ action.has_model_fields then none
    else if "index" ∈ action.model_fields ∧ "coordinate_x" ∈ action.model_fields then
      some ActionType.CLICK
    else if "text" ∈ action.model_fields ∧ "index" ∈ action.model_fields then
      some ActionType.TYPE
    else if "url" ∈ action.model_fields then some ActionType.NAVIGATE
    else if "down" ∈ action.model_fields ∧ "pages" ∈ action.model_fields then
      some ActionType.SCROLL
    else none
  match from_fields with
  | some t => t
  | none =>
    let class_name := lowerStr action.class_name
    if containsStr class_name "click" then ActionType.CLICK
    else if containsStr class_name "type" || containsStr class_name "input" then
      ActionType.TYPE
    else if containsStr class_name "navigate" || containsStr class_name "goto" then
      ActionType.NAVIGATE
    else if containsStr class_name "scroll" then ActionType.SCROLL
    else ActionType.OTHER

/-- `BrowserAgent.get_last_action` (src/agent_b/browser_agent.py lines
177-215).  `extracted` is `self._last_extracted_content`; `model_output` is
the action list of `self.agent.state.last_model_output` (`none` when the
agent or its last model output is absent).  The free-text path returns only
when a keyword matched; otherwise control falls through to the structural
path, which synthesizes `"<kind> action"` when both `description` and
`reasoning` are falsy and truncates to 100 characters. -/
def getLastAction (extracted : Option String)
    (model_output : Option (List RawAction)) : Option ActionFromPrevious :=
  let from_text : Option ActionFromPrevious :=
    match extracted with
    | some t =>
      if t ≠ "" then
        match detectTypeFromText t with
        | some ty =>
          some { type := ty, description := strTake t 100, element_index := none }
        | none => none
      else none
    | none => none
  match from_text with
  | some a => some a
  | none =>
    match model_output with
    | none => none
    | some actions =>
      match actions with
      | [] => none
      | action :: _ =>
        let action_type := detectTypeFromAction action
        let desc :=
          if truthyOptStr action.description then action.description.getD ""
          else if truthyOptStr action.reasoning then action.reasoning.getD ""
          else action_type.value ++ " action"
        some { type := action_type, description := strTake desc 100,
               element_index := action.index }

end AgentB

namespace Wrapper

/-- The single-quote character `'` (written by code point to keep the
development plain ASCII-friendly). -/
def squote : Char := Char.ofNat 39

/-- The double-quote character `"`. -/
def dquote : Char := Char.ofNat 34

/-- A character the regex class treats as a quote. -/
def isQuoteChar (c : Char) : Bool := c == squote || c == dquote

/-- The regex search of `browser_agent_wrapper.get_last_action`,
`re.search` for a quote, one or more non-quote characters, then a quote:
returns the first such captured group. -/
def findQuoted : List Char → Option String
  | [] => none
  | c :: rest =>
    if isQuoteChar c then
      let run := rest.takeWhile (fun d => ¬ isQuoteChar d)
      let after := rest.drop run.length
      if run ≠ [] ∧ after ≠ [] then some (String.mk run)
      else findQuoted rest
    else findQuoted rest

/-- `findQuoted` on a string. -/
def findQuotedStr (s : String) : Option String := findQuoted s.data

/-- `String.singleton squote`, used to rebuild the f-strings of the source. -/
def sq : String := String.singleton squote

/-- The `extracted_content` branch of `BrowserAgentWrapper.get_last_action`
(src/browser_agent_wrapper.py lines 243-331), reached when the last action
result carries truthy extracted content.  `none` means none of the
`Clicked` / `Typed` / `Navigated` / `Searched` keywords matched and control
falls through to the model-output path.  Note: no branch truncates the
description. -/
def getLastActionFromExtracted (extracted : String) : Option ActionFromPrevious :=
  if containsStr extracted "Clicked" || containsStr extracted "clicked" then
    match findQuotedStr extracted with
    | some element_name =>
      some { type := ActionType.CLICK,
             description := "Click on " ++ sq ++ element_name ++ sq,
             element_index := none }
    | none =>
      let desc := (extracted.replace "Clicked a " "").replace "clicked a " ""
      some { type := ActionType.CLICK, description := desc, element_index := none }
  else if containsStr extracted "Typed" || containsStr extracted "typed" then
    match findQuotedStr extracted with
    | some typed_text =>
      some { type := ActionType.TYPE,
             description := "Type " ++ sq ++ typed_text ++ sq,
             element_index := none }
    | none =>
      some { type := ActionType.TYPE, description := extracted, element_index := none }
  else if containsStr extracted "Navigated" || containsStr extracted "navigated" then
    some { type := ActionType.NAVIGATE, description := extracted, element_index := none }
  else if containsStr extracted "Searched" || containsStr extracted "searched" then
    match findQuotedStr extracted with
    | some query =>
      some { type := ActionType.OTHER,
             description := "Search for " ++ sq ++ query ++ sq,
             element_index := none }
    | none =>
      some { type := ActionType.OTHER, description := extracted, element_index := none }
  else none

end Wrapper

/-- The environment's contribution to one iteration of `TaskRunner.run`
(src/task_runner.py lines 106-218): whether `agent_wrapper.step()` succeeds
(`false` = it raised, which the loop re-raises), the result of `get_state()`
(`none` = it raised, which the loop skips with `continue`), the classified
last action, the `is_done()` signal, and — for the done branch — the state
returned by the final `get_state()` (`none` = it raised) together with the
final `get_last_action()` result. -/
structure IterationInput where
  step_ok : Bool
  observed : Option BrowserStateSummary
  last_action : Option ActionFromPrevious
  is_done : Bool
  final_observed : Option BrowserStateSummary
  final_action : Option ActionFromPrevious
deriving Repr, DecidableEq

/-- How the `for step_num in range(1, max_steps+1)` loop of `TaskRunner.run`
ends: `completed` via the `is_done` break (status becomes `success`),
`exhausted` by running out of iterations (status becomes `timeout`), or
`raised` by an exception escaping the loop body (status becomes `failure`). -/
inductive LoopExit
  | completed (cap : StateCapture) (steps : List Step)
  | exhausted (cap : StateCapture) (steps : List Step)
  | raised (cap : StateCapture) (steps : List Step)
deriving Repr, DecidableEq

/-- The `self.steps` list at loop exit. -/
def LoopExit.steps : LoopExit → List Step
  | .completed _ s => s
  | .exhausted _ s => s
  | .raised _ s => s

/-- The recorder state at loop exit. -/
def LoopExit.cap : LoopExit → StateCapture
  | .completed c _ => c
  | .exhausted c _ => c
  | .raised c _ => c

/-- The terminal status each exit path assigns (`SUCCESS` at the `is_done`
break, `TIMEOUT` after the loop, `FAILURE` in the `except` branch). -/
def LoopExit.status : LoopExit → TaskStatus
  | .completed _ _ => TaskStatus.success
  | .exhausted _ _ => TaskStatus.timeout
  | .raised _ _ => TaskStatus.failure

/-- Whether the exit path re-raises out of `run()`. -/
def LoopExit.didRaise : LoopExit → Bool
  | .completed _ _ => false
  | .exhausted _ _ => false
  | .raised _ _ => true

/-- `TaskRunner._generate_state_description` (src/task_runner.py lines
306-324); `state.title or state.url` is Python truthiness on strings. -/
def generateStateDescription (state : BrowserStateSummary)
    (action : Option ActionFromPrevious) (step_num : Nat) : String :=
  match action with
  | some a => "After " ++ a.type.value ++ ": " ++ a.description
  | none =>
    "Step " ++ toString step_num ++ " - "
      ++ (if state.title ≠ "" then state.title else state.url)

/-- The state description the loop passes to `capture_step`
(src/task_runner.py lines 163-171): a fixed "Initial state after
navigation" text on iteration 1, otherwise `_generate_state_description`. -/
def loopStateDesc (step_num : Nat) (task_instruction : String)
    (state : BrowserStateSummary) (action : Option ActionFromPrevious) : String :=
  if step_num == 1 then "Initial state after navigation: " ++ task_instruction
  else generateStateDescription state action step_num

/-- The `if is_done:` branch of the loop body (src/task_runner.py lines
198-214): a final forced `get_state` plus capture with `is_final=True`,
then `status = SUCCESS; break`.  Any exception here escapes the loop. -/
def finalCaptureExit (inp : IterationInput) (cap : StateCapture)
    (steps : List Step) : LoopExit :=
  match inp.final_observed with
  | none => LoopExit.raised cap steps
  | some final_state =>
    if shouldCapture cap final_state false true inp.final_action then
      match captureStep cap final_state inp.final_action
          "Task completed successfully" with
      | Except.error _ => LoopExit.raised cap steps
      | Except.ok (final_step, cap') =>
        LoopExit.completed cap' (steps ++ [final_step])
    else LoopExit.completed cap steps

/-- The step loop of `TaskRunner.run` (src/task_runner.py lines 104-218),
driven by the per-iteration environment trace `inputs` (one entry per
permitted iteration, so `inputs.length` plays the role of `max_steps`).
`step_num` starts at 1; iteration 1 bypasses the policy
(`should_capture = (step_num == 1) or ...`). -/
def runLoop (inputs : List IterationInput) (cap : StateCapture)
    (steps : List Step) (step_num : Nat) (task_instruction : String) : LoopExit :=
  match inputs with
  | [] => LoopExit.exhausted cap steps
  | inp :: rest =>
    if ¬ inp.step_ok then LoopExit.raised cap steps
    else
      match inp.observed with
      | none => runLoop rest cap steps (step_num + 1) task_instruction
      | some current_state =>
        let last_action := inp.last_action
        let should :=
          (step_num == 1) || shouldCapture cap current_state false false last_action
        if should then
          match captureStep cap current_state last_action
              (loopStateDesc step_num task_instruction current_state last_action) with
          | Except.error _ => LoopExit.raised cap steps
          | Except.ok (step, cap') =>
            if inp.is_done then finalCaptureExit inp cap' (steps ++ [step])
            else runLoop rest cap' (steps ++ [step]) (step_num + 1) task_instruction
        else
          if inp.is_done then finalCaptureExit inp cap steps
          else runLoop rest cap steps (step_num + 1) task_instruction

/-- The observable outcome of `TaskRunner.run` including its `finally`
block: the final `TaskRun` fields, the captured list, the persisted
artifacts, and the sequence of values `task_run.status` took. -/
structure RunOutcome where
  status : TaskStatus
  total_steps : Nat
  captured : List Step
  steps : List Step
  raised : Bool
  metadata_saved : Bool
  saved_step_files : List Step
  tutorial_generated : Bool
  status_history : List TaskStatus
deriving Repr, DecidableEq

/-- The `finally` block of `TaskRunner.run` (src/task_runner.py lines
227-262): stamp metadata (`total_steps = len(self.steps)`), save the
`TaskRun`, then — only when steps exist — try the `TutorialEnhancer`
collaborator, whose result is `enhance captured` (`some es` = success with
enhanced steps `es`, re-saved and replacing `self.steps`; `none` = it
raised, which is caught, logged and swallowed), and finally generate the
tutorial.  The loop already wrote one step file per captured step. -/
def finalize (status : TaskStatus) (captured : List Step) (raised : Bool)
    (enhance : List Step → Option (List Step)) : RunOutcome :=
  let enh_result : Option (List Step) :=
    if captured.isEmpty then none else enhance captured
  match enh_result with
  | some enhanced =>
    { status := status
      total_steps := captured.length
      captured := captured
      steps := enhanced
      raised := raised
      metadata_saved := true
      saved_step_files := captured ++ enhanced
      tutorial_generated := true
      status_history := [TaskStatus.in_progress, status] }
  | none =>
    { status := status
      total_steps := captured.length
      captured := captured
      steps := captured
      raised := raised
      metadata_saved := true
      saved_step_files := captured
      tutorial_generated := true
      status_history := [TaskStatus.in_progress, status] }

/-- `TaskRunner.run` (src/task_runner.py lines 66-264): fresh recorder,
status starts `in_progress`, the loop runs, then exactly one terminal status
assignment — `success` at the `is_done` break, `timeout` after the loop if
the status is still `in_progress`, `failure` in the `except` branch (which
re-raises after the `finally` block). -/
def runTask (inputs : List IterationInput) (task_instruction : String)
    (enhance : List Step → Option (List Step)) : RunOutcome :=
  match runLoop inputs StateCapture.init [] 1 task_instruction with
  | LoopExit.completed _ steps => finalize TaskStatus.success steps false enhance
  | LoopExit.exhausted _ steps => finalize TaskStatus.timeout steps false enhance
  | LoopExit.raised _ steps => finalize TaskStatus.failure steps true enhance

/-! ### Concrete inputs used by witnesses and counterexamples -/

/-- A plain state: screenshot present, no interactive map. -/
def stPlain : BrowserStateSummary :=
  { url := "https://a.example", title := "A", screenshot := some "iVBOR",
    dom_state := none }

/-- A state whose interactive map's textual representation carries a
dialog marker. -/
def stModal : BrowserStateSummary :=
  { url := "https://a.example", title := "A", screenshot := some "iVBOR",
    dom_state := some { selector_map := [1], llm_repr := "div role=dialog open" } }

/-- A state carrying no screenshot payload. -/
def stNoShot : BrowserStateSummary :=
  { url := "https://a.example", title := "A", screenshot := none,
    dom_state := none }

/-- A state whose URL is the empty string. -/
def stEmptyUrl : BrowserStateSummary :=
  { url := "", title := "", screenshot := some "iVBOR", dom_state := none }

/-- An iteration that observes `stModal`, with no classified action and no
completion signal. -/
def inpModal : IterationInput :=
  { step_ok := true, observed := some stModal, last_action := none,
    is_done := false, final_observed := none, final_action := none }

/-- An iteration that observes `stPlain`, with no classified action and no
completion signal. -/
def inpPlain : IterationInput :=
  { step_ok := true, observed := some stPlain, last_action := none,
    is_done := false, final_observed := none, final_action := none }

/-- An iteration that observes a state with no screenshot payload. -/
def inpNoShot : IterationInput :=
  { step_ok := true, observed := some stNoShot, last_action := none,
    is_done := false, final_observed := none, final_action := none }

/-- An iteration that observes `stPlain` and signals completion, with the
final forced `get_state` succeeding. -/
def inpDone : IterationInput :=
  { step_ok := true, observed := some stPlain, last_action := none,
    is_done := true, final_observed := some stPlain, final_action := none }

/-- The free text of the C6 scenario, `Clicked a role=link 'Pricing'`
(single quotes spelled via `Wrapper.sq`). -/
def pricingText : String :=
  "Clicked a role=link " ++ Wrapper.sq ++ "Pricing" ++ Wrapper.sq

/-- Extracted content of the form `typed aaaa...a` (120 `a`s), quote-free,
for the truncation counterexample: 126 characters. -/
def longTyped : String := "typed " ++ String.mk (List.replicate 120 'a')

/-- A plain state at a second URL. -/
def stB : BrowserStateSummary :=
  { url := "https://b.example", title := "B", screenshot := some "iVBOR",
    dom_state := none }

/-- The step produced by capturing `stPlain` with a fresh recorder. -/
def wStep0 : Step :=
  { step_index := 0, screenshot_path := "step_000.png", url := "https://a.example",
    has_unique_url := true, action_from_previous := none,
    state_description := "Step 0", llm_enhanced_instruction := none,
    llm_context := none }

/-- The recorder after capturing `stPlain` with a fresh recorder. -/
def wCap0 : StateCapture := { step_index := 1, previous_url := some "https://a.example" }

/-- A state at a second URL carrying no screenshot payload. -/
def stNoShotB : BrowserStateSummary :=
  { url := "https://b.example", title := "B", screenshot := none,
    dom_state := none }

/-- An iteration that observes `stNoShotB`, with no classified action and
no completion signal. -/
def inpNoShotB : IterationInput :=
  { step_ok := true, observed := some stNoShotB, last_action := none,
    is_done := false, final_observed := none, final_action := none }

/-- The step captured by iteration 1 of a run with instruction `t`
observing `stPlain`. -/
def wStepInit : Step :=
  { step_index := 0, screenshot_path := "step_000.png", url := "https://a.example",
    has_unique_url := true, action_from_previous := none,
    state_description := "Initial state after navigation: t",
    llm_enhanced_instruction := none, llm_context := none }

/-- The step produced by capturing `stB` with a recorder whose previous
captured URL is `https://a.example`. -/
def wStep5 : Step :=
  { step_index := 1, screenshot_path := "step_001.png", url := "https://b.example",
    has_unique_url := true, action_from_previous := none,
    state_description := "d", llm_enhanced_instruction := none,
    llm_context := none }

/-! ### Theorems -/

/-- On a successful capture the built step carries the recorder's current
index and the recorder advances: index incremented by exactly 1, previous
URL set to the captured state's URL. -/
theorem captureStep_ok_fields {self : StateCapture} {state : BrowserStateSummary}
    {act : Option ActionFromPrevious} {d : String} {s : Step} {c' : StateCapture}
    (h : captureStep self state act d = Except.ok (s, c')) :
    s.step_index = self.step_index ∧ c'.step_index = self.step_index + 1 ∧
    c'.previous_url = some state.url := by
  unfold captureStep at h
  cases hs : saveScreenshot state self.step_index with
  | error e => rw [hs] at h; exact absurd h (by simp)
  | ok sp =>
    rw [hs] at h
    simp only [Except.ok.injEq, Prod.mk.injEq] at h
    obtain ⟨h1, h2⟩ := h
    refine ⟨?_, ?_, ?_⟩ <;> simp [← h1, ← h2]

/-- A state with a falsy screenshot payload makes `capture_step` raise the
`ValueError` of `_save_screenshot`, before any recorder mutation. -/
theorem captureStep_noshot {self : StateCapture} {state : BrowserStateSummary}
    {act : Option ActionFromPrevious} {d : String}
    (h : truthyOptStr state.screenshot = false) :
    captureStep self state act d
      = Except.error ("No screenshot in browser state for step "
          ++ toString self.step_index) := by
  unfold captureStep saveScreenshot
  simp [h]

/-- The fields of the finalize phase that do not depend on the enhancement
collaborator's outcome. -/
theorem finalize_spec (status : TaskStatus) (captured : List Step) (raised : Bool)
    (enhance : List Step → Option (List Step)) :
    (finalize status captured raised enhance).status = status ∧
    (finalize status captured raised enhance).total_steps = captured.length ∧
    (finalize status captured raised enhance).captured = captured ∧
    (finalize status captured raised enhance).raised = raised ∧
    (finalize status captured raised enhance).metadata_saved = true ∧
    (finalize status captured raised enhance).tutorial_generated = true ∧
    (finalize status captured raised enhance).status_history
      = [TaskStatus.in_progress, status] ∧
    captured ⊆ (finalize status captured raised enhance).saved_step_files := by
  unfold finalize
  rcases henh : (if captured.isEmpty then (none : Option (List Step))
      else enhance captured) with _ | es <;>
    simp only [henh] <;>
    refine ⟨trivial, trivial, trivial, trivial, trivial, trivial, trivial, ?_⟩
  · exact fun x hx => hx
  · exact List.subset_append_left _ _

/-- The finalize phase with a collaborator that always raises: the
exception is swallowed, the captured steps stand. -/
theorem finalize_fail_spec (status : TaskStatus) (captured : List Step)
    (raised : Bool) :
    finalize status captured raised (fun _ => none)
      = { status := status, total_steps := captured.length, captured := captured,
          steps := captured, raised := raised, metadata_saved := true,
          saved_step_files := captured, tutorial_generated := true,
          status_history := [TaskStatus.in_progress, status] } := by
  unfold finalize
  have h : (if captured.isEmpty then (none : Option (List Step))
      else (fun _ => (none : Option (List Step))) captured) = none := by
    split <;> rfl
  simp only [h]

/-- `runTask` is the finalize phase applied to the loop's exit. -/
theorem runTask_eq (inputs : List IterationInput) (t : String)
    (enhance : List Step → Option (List Step)) :
    runTask inputs t enhance
      = finalize (runLoop inputs StateCapture.init [] 1 t).status
          (runLoop inputs StateCapture.init [] 1 t).steps
          (runLoop inputs StateCapture.init [] 1 t).didRaise enhance := by
  unfold runTask
  cases runLoop inputs StateCapture.init [] 1 t <;>
    simp [LoopExit.status, LoopExit.steps, LoopExit.didRaise]

/-- Appending a step whose index equals the list's length preserves the
`0..n-1` index shape. -/
theorem indices_append {steps : List Step} {s : Step}
    (h : steps.map Step.step_index = List.range steps.length)
    (hs : s.step_index = steps.length) :
    (steps ++ [s]).map Step.step_index = List.range (steps ++ [s]).length := by
  simp [List.range_succ, h, hs]

/-- The forced final capture preserves the `0..n-1` index shape. -/
theorem finalCaptureExit_indices (inp : IterationInput) (cap : StateCapture)
    (steps : List Step) (h1 : cap.step_index = steps.length)
    (h2 : steps.map Step.step_index = List.range steps.length) :
    (finalCaptureExit inp cap steps).steps.map Step.step_index
      = List.range (finalCaptureExit inp cap steps).steps.length := by
  unfold finalCaptureExit
  cases inp.final_observed with
  | none => simpa [LoopExit.steps] using h2
  | some fs =>
    by_cases hsc : shouldCapture cap fs false true inp.final_action = true
    · cases hcap : captureStep cap fs inp.final_action
          "Task completed successfully" with
      | error e => simp [hcap, hsc, LoopExit.steps, h2]
      | ok p =>
        obtain ⟨s, c'⟩ := p
        have hf := captureStep_ok_fields hcap
        simp only [hcap, hsc, if_true, LoopExit.steps]
        exact indices_append h2 (by rw [hf.1, h1])
    · simp [hsc, LoopExit.steps, h2]

/-- Loop invariant: starting from a recorder whose index equals the number
of captured steps and a step list with indices `0..n-1`, every exit of the
loop carries a step list with indices `0..n-1`. -/
theorem runLoop_indices (inputs : List IterationInput) :
    ∀ (cap : StateCapture) (steps : List Step) (k : Nat) (t : String),
      cap.step_index = steps.length →
      steps.map Step.step_index = List.range steps.length →
      (runLoop inputs cap steps k t).steps.map Step.step_index
        = List.range (runLoop inputs cap steps k t).steps.length := by
  induction inputs with
  | nil => intro cap steps k t h1 h2; simpa [runLoop, LoopExit.steps] using h2
  | cons inp rest ih =>
    intro cap steps k t h1 h2
    unfold runLoop
    by_cases hok : inp.step_ok = true
    · cases hobs : inp.observed with
      | none => simp only [hok, hobs, not_true, if_neg, Bool.not_eq_true]
                exact ih cap steps (k + 1) t h1 h2
      | some st =>
        by_cases hshould :
            ((k == 1) || shouldCapture cap st false false inp.last_action) = true
        · cases hcap : captureStep cap st inp.last_action
              (loopStateDesc k t st inp.last_action) with
          | error e =>
            simp [hok, hobs, hshould, hcap, LoopExit.steps, h2]
          | ok p =>
            obtain ⟨s, c'⟩ := p
            have hf := captureStep_ok_fields hcap
            have h1' : c'.step_index = (steps ++ [s]).length := by
              simp [hf.2.1, h1]
            have h2' := indices_append h2 (by rw [hf.1, h1])
            by_cases hdone : inp.is_done = true
            · simp only [hok, hobs, hshould, hcap, hdone, if_true, not_true,
                Bool.not_eq_true, if_neg]
              simpa using finalCaptureExit_indices inp c' (steps ++ [s]) h1' h2'
            · simp only [hok, hobs, hshould, hcap, hdone, not_true,
                Bool.not_eq_true, if_neg, if_false]
              simpa using ih c' (steps ++ [s]) (k + 1) t h1' h2'
        · by_cases hdone : inp.is_done = true
          · simp only [hok, hobs, hshould, hdone]
            simpa using finalCaptureExit_indices inp cap steps h1 h2
          · simp only [hok, hobs, hshould, hdone]
            simpa using ih cap steps (k + 1) t h1 h2
    · simp only [hok, LoopExit.steps]
      simpa [LoopExit.steps] using h2

/-- `strTake` never yields more than `n` characters. -/
theorem strTake_length_le (s : String) (n : Nat) : (strTake s n).length ≤ n := by
  show (s.data.take n).length ≤ n
  simp [List.length_take]

/-- Empty extracted content is falsy: the classifier behaves as if no
extracted content were present. -/
theorem agentB_empty_text (mo : Option (List AgentB.RawAction)) :
    AgentB.getLastAction (some "") mo = AgentB.getLastAction none mo := by
  unfold AgentB.getLastAction
  simp

/-- When a keyword matches the free text, the classifier returns from the
text path alone, with the text (truncated to 100) as description. -/
theorem agentB_text_hit {t : String} (mo : Option (List AgentB.RawAction))
    {k : ActionType} (ht : t ≠ "")
    (hdet : AgentB.detectTypeFromText t = some k) :
    AgentB.getLastAction (some t) mo
      = some { type := k, description := strTake t 100, element_index := none } := by
  unfold AgentB.getLastAction
  simp [ht, hdet]

/-- When no keyword matches, present free text changes nothing: control
falls through to the structural inspection of the action object. -/
theorem agentB_text_miss {t : String} (mo : Option (List AgentB.RawAction))
    (ht : t ≠ "") (hdet : AgentB.detectTypeFromText t = none) :
    AgentB.getLastAction (some t) mo = AgentB.getLastAction none mo := by
  unfold AgentB.getLastAction
  simp [ht, hdet]

/-- Every action produced by the structural path has a description of at
most 100 characters. -/
theorem agentB_structural_bound (mo : Option (List AgentB.RawAction))
    (a : ActionFromPrevious) (h : AgentB.getLastAction none mo = some a) :
    a.description.length ≤ 100 := by
  rcases mo with _ | actions
  · simp [AgentB.getLastAction] at h
  · rcases actions with _ | ⟨ra, rest⟩
    · simp [AgentB.getLastAction] at h
    · simp only [AgentB.getLastAction, Option.some.injEq] at h
      subst h
      exact strTake_length_le _ 100

/-- C1: `StateCapture.should_capture` returns `True` exactly when one of
the spec's conditions holds — `is_initial` or `is_final` set; a previous
URL set and different from the state's URL; the modal/dialog heuristic
(whose markers are `role=dialog`, `role=alertdialog`, `modal`, `dialog`
matched in the lower-cased interactive-map text, and which is `False`
without raising when no interactive map is present); or an action of kind
`CLICK`, `TYPE` or `NAVIGATE` — and `False` otherwise. -/
theorem should_capture_iff :
    (∀ (self : StateCapture) (state : BrowserStateSummary) (ini fin : Bool)
        (act : Option ActionFromPrevious),
      shouldCapture self state ini fin act = true ↔
        (ini = true ∨ fin = true ∨
         (∃ p, self.previous_url = some p ∧ state.url ≠ p) ∨
         hasModalOrDialog state = true ∨
         (∃ a, act = some a ∧
            (a.type = ActionType.CLICK ∨ a.type = ActionType.TYPE ∨
             a.type = ActionType.NAVIGATE)))) ∧
    (∀ (state : BrowserStateSummary),
      hasModalOrDialog state = true ↔
        ∃ dom, state.dom_state = some dom ∧ dom.selector_map ≠ [] ∧
          ∃ m ∈ (["role=dialog", "role=alertdialog", "modal", "dialog"] : List String),
            containsStr (lowerStr dom.llm_repr) m = true) := by
  refine ⟨?_, ?_⟩
  · intro self state ini fin act
    unfold shouldCapture
    rcases act with _ | ⟨ty, desc, ei⟩ <;>
      cases ini <;> cases fin <;>
      rcases hprev : self.previous_url with _ | p <;>
      cases hm : hasModalOrDialog state <;>
      first
        | (cases ty <;> simp_all <;> by_cases hup : state.url = p <;> simp_all)
        | (simp_all <;> by_cases hup : state.url = p <;> simp_all)
  · intro state
    unfold hasModalOrDialog
    rcases hdom : state.dom_state with _ | dom
    · simp
    · by_cases hsel : dom.selector_map.isEmpty <;>
        simp_all [List.any_eq_true, List.isEmpty_iff]

/-- C1 witness: the policy instantiated on a concrete modal state. -/
theorem should_capture_iff_witness :
    shouldCapture StateCapture.init stModal false false none = true ↔
      (false = true ∨ false = true ∨
       (∃ p, StateCapture.init.previous_url = some p ∧ stModal.url ≠ p) ∨
       hasModalOrDialog stModal = true ∨
       (∃ a, (none : Option ActionFromPrevious) = some a ∧
          (a.type = ActionType.CLICK ∨ a.type = ActionType.TYPE ∨
           a.type = ActionType.NAVIGATE))) :=
  should_capture_iff.1 StateCapture.init stModal false false none

/-- C10: wherever the `agent_b` copy of the capture policy fires, the
primary copy fires as well; the two policies agree except that the primary
one additionally fires on the modal/dialog heuristic. -/
theorem agentB_policy_subset_primary :
    ∀ (self : StateCapture) (state : BrowserStateSummary) (ini fin : Bool)
      (act : Option ActionFromPrevious),
      (AgentB.shouldCapture self state ini fin act = true →
        shouldCapture self state ini fin act = true) ∧
      shouldCapture self state ini fin act
        = (AgentB.shouldCapture self state ini fin act || hasModalOrDialog state) := by
  intro self state ini fin act
  have h2 : shouldCapture self state ini fin act
      = (AgentB.shouldCapture self state ini fin act || hasModalOrDialog state) := by
    unfold shouldCapture AgentB.shouldCapture
    rcases act with _ | ⟨ty, desc, ei⟩ <;>
      cases ini <;> cases fin <;>
      rcases hprev : self.previous_url with _ | p <;>
      cases hm : hasModalOrDialog state <;>
      first
        | (cases ty <;> simp_all <;> by_cases hup : state.url = p <;> simp_all)
        | (simp_all <;> by_cases hup : state.url = p <;> simp_all)
  refine ⟨fun h => ?_, h2⟩
  rw [h2, h, Bool.true_or]

/-- C10 witness: a concrete input on which the `agent_b` policy fires
(final flag set) and the primary policy therefore fires too. -/
theorem agentB_policy_subset_primary_witness :
    shouldCapture StateCapture.init stPlain false true none = true :=
  (agentB_policy_subset_primary StateCapture.init stPlain false true none).1
    (by decide)

/-- C6 counterexample: the primary wrapper's classifier
(`BrowserAgentWrapper.get_last_action`, used by the top-level
`TaskRunner`) does not follow the claimed keyword table: for the free text
`click here` — which, per the claim, should yield kind CLICK from the text
alone — its extracted-content branch matches none of its markers
(`Clicked`/`Typed`/`Navigated`/`Searched`) and control falls through to
structural inspection of the action object. -/
theorem classify_free_text_cex :
    Wrapper.getLastActionFromExtracted "click here" = none ∧
    containsStr (lowerStr "click here") "click" = true := by
  refine ⟨by decide, by decide⟩

set_option maxRecDepth 8192 in
/-- C6 amended: the claimed keyword table (`click` → CLICK; `type`/`input`
→ TYPE; `navigate`/`goto` → NAVIGATE; `scroll` → SCROLL, first match wins,
no keyword hit falls through to structural inspection of the action
object) holds for the `agent_b` classifier
(`BrowserAgent._detect_type_from_text` / `get_last_action`); the primary
wrapper's classifier matches the capitalized markers
`Clicked`/`Typed`/`Navigated`/`Searched` instead.  The scenario text
`Clicked a role=link 'Pricing'` classifies to kind CLICK with a
description containing `Pricing` in both copies. -/
theorem classify_free_text :
    (∀ t, AgentB.detectTypeFromText t = some ActionType.CLICK ↔
       containsStr (lowerStr t) "click" = true) ∧
    (∀ t, AgentB.detectTypeFromText t = some ActionType.TYPE ↔
       (containsStr (lowerStr t) "click" = false ∧
        (containsStr (lowerStr t) "type" = true ∨
         containsStr (lowerStr t) "input" = true))) ∧
    (∀ t, AgentB.detectTypeFromText t = some ActionType.NAVIGATE ↔
       (containsStr (lowerStr t) "click" = false ∧
        containsStr (lowerStr t) "type" = false ∧
        containsStr (lowerStr t) "input" = false ∧
        (containsStr (lowerStr t) "navigate" = true ∨
         containsStr (lowerStr t) "goto" = true))) ∧
    (∀ t, AgentB.detectTypeFromText t = some ActionType.SCROLL ↔
       (containsStr (lowerStr t) "click" = false ∧
        containsStr (lowerStr t) "type" = false ∧
        containsStr (lowerStr t) "input" = false ∧
        containsStr (lowerStr t) "navigate" = false ∧
        containsStr (lowerStr t) "goto" = false ∧
        containsStr (lowerStr t) "scroll" = true)) ∧
    (∀ t mo k, t ≠ "" → AgentB.detectTypeFromText t = some k →
       AgentB.getLastAction (some t) mo
         = some { type := k, description := strTake t 100, element_index := none }) ∧
    (∀ t mo, t ≠ "" → AgentB.detectTypeFromText t = none →
       AgentB.getLastAction (some t) mo = AgentB.getLastAction none mo) ∧
    (AgentB.getLastAction (some pricingText) none
       = some { type := ActionType.CLICK, description := pricingText,
                element_index := none } ∧
     containsStr pricingText "Pricing" = true) ∧
    (Wrapper.getLastActionFromExtracted pricingText
       = some { type := ActionType.CLICK,
                description := "Click on " ++ Wrapper.sq ++ "Pricing" ++ Wrapper.sq,
                element_index := none } ∧
     containsStr ("Click on " ++ Wrapper.sq ++ "Pricing" ++ Wrapper.sq)
       "Pricing" = true) := by
  refine ⟨?_, ?_, ?_, ?_, ?_, ?_, ?_, ?_⟩
  · intro t
    simp only [AgentB.detectTypeFromText]
    split_ifs <;> simp_all [Bool.or_eq_true] <;> (intros; simp_all)
  · intro t
    simp only [AgentB.detectTypeFromText]
    split_ifs <;> simp_all [Bool.or_eq_true] <;> (intros; simp_all)
  · intro t
    simp only [AgentB.detectTypeFromText]
    split_ifs <;> simp_all [Bool.or_eq_true] <;> (intros; simp_all)
  · intro t
    simp only [AgentB.detectTypeFromText]
    split_ifs <;> simp_all [Bool.or_eq_true] <;> (intros; simp_all)
  · intro t mo k ht hdet
    exact agentB_text_hit mo ht hdet
  · intro t mo ht hdet
    exact agentB_text_miss mo ht hdet
  · exact ⟨by decide, by decide⟩
  · exact ⟨by decide, by decide⟩

/-- C6 witness: the keyword path applied to the concrete text `Clicked`. -/
theorem classify_free_text_witness :
    AgentB.getLastAction (some "Clicked") none
      = some { type := ActionType.CLICK, description := strTake "Clicked" 100,
               element_index := none } :=
  classify_free_text.2.2.2.2.1 "Clicked" none ActionType.CLICK
    (by decide) (by decide)

set_option maxRecDepth 8192 in
/-- C9 counterexample: the primary wrapper's classifier
(`BrowserAgentWrapper.get_last_action`) returns, for the quote-free
extracted text `typed aaa...a` (126 characters), an action whose
description is the full 126-character text — longer than 100 characters,
refuting the claim for this classifier. -/
theorem description_truncation_cex :
    (Wrapper.getLastActionFromExtracted longTyped).map
        (fun a => a.description.length) = some 126 ∧ 100 < 126 := by
  constructor
  · decide
  · decide

/-- C9 amended: the 100-character bound and the `"<kind> action"` synthesis
hold for the `agent_b` classifier (`BrowserAgent.get_last_action`), every
return site of which truncates; the primary wrapper's classifier does not
truncate its descriptions. -/
theorem description_truncation_amended :
    (∀ ex mo a, AgentB.getLastAction ex mo = some a →
       a.description.length ≤ 100) ∧
    (∀ (ra : AgentB.RawAction) (rest : List AgentB.RawAction),
       truthyOptStr ra.description = false → truthyOptStr ra.reasoning = false →
       AgentB.getLastAction none (some (ra :: rest))
         = some { type := AgentB.detectTypeFromAction ra,
                  description :=
                    strTake ((AgentB.detectTypeFromAction ra).value ++ " action") 100,
                  element_index := ra.index }) := by
  constructor
  · intro ex mo a h
    rcases ex with _ | t
    · exact agentB_structural_bound mo a h
    · by_cases ht : t = ""
      · subst ht
        rw [agentB_empty_text] at h
        exact agentB_structural_bound mo a h
      · cases hdet : AgentB.detectTypeFromText t with
        | some k =>
          rw [agentB_text_hit mo ht hdet] at h
          simp only [Option.some.injEq] at h
          subst h
          exact strTake_length_le t 100
        | none =>
          rw [agentB_text_miss mo ht hdet] at h
          exact agentB_structural_bound mo a h
  · intro ra rest hdesc hreas
    unfold AgentB.getLastAction
    simp [hdesc, hreas]

/-- C9 witness: a raw action with neither description nor reasoning,
classified as OTHER with the synthesized description. -/
theorem description_truncation_amended_witness :
    AgentB.getLastAction none
        (some [{ has_model_fields := false, model_fields := [], class_name := "Wait",
                 description := none, reasoning := none, index := none }])
      = some { type := AgentB.detectTypeFromAction
                 { has_model_fields := false, model_fields := [], class_name := "Wait",
                   description := none, reasoning := none, index := none },
               description :=
                 strTake ((AgentB.detectTypeFromAction
                   { has_model_fields := false, model_fields := [], class_name := "Wait",
                     description := none, reasoning := none, index := none }).value
                     ++ " action") 100,
               element_index := none } :=
  description_truncation_amended.2
    { has_model_fields := false, model_fields := [], class_name := "Wait",
      description := none, reasoning := none, index := none } []
    (by decide) (by decide)

/-- C2: for every run, the captured steps' indices are exactly
`0..step_count-1` in capture order (no gaps, no repeats), where
`step_count` is the `total_steps` value finalized at run termination; each
successful capture carries the recorder's current index and increments it
by exactly 1, and iterations that do not capture leave the recorder
untouched, consuming no index. -/
theorem captured_indices_contiguous :
    (∀ (inputs : List IterationInput) (t : String)
        (enhance : List Step → Option (List Step)),
      (runTask inputs t enhance).captured.map Step.step_index
        = List.range (runTask inputs t enhance).total_steps ∧
      (runTask inputs t enhance).total_steps
        = (runTask inputs t enhance).captured.length) ∧
    (∀ (self : StateCapture) (state : BrowserStateSummary)
        (act : Option ActionFromPrevious) (d : String) (s : Step)
        (c' : StateCapture),
      captureStep self state act d = Except.ok (s, c') →
      s.step_index = self.step_index ∧ c'.step_index = self.step_index + 1) := by
  constructor
  · intro inputs t enhance
    have hinv := runLoop_indices inputs StateCapture.init [] 1 t rfl rfl
    obtain ⟨f1, f2, f3, f4, f5, f6, f7, f8⟩ :=
      finalize_spec (runLoop inputs StateCapture.init [] 1 t).status
        (runLoop inputs StateCapture.init [] 1 t).steps
        (runLoop inputs StateCapture.init [] 1 t).didRaise enhance
    rw [runTask_eq, f2, f3]
    exact ⟨hinv, rfl⟩
  · intro self state act d s c' h
    have hf := captureStep_ok_fields h
    exact ⟨hf.1, hf.2.1⟩

/-- C2 witness: a concrete first capture takes index 0 and advances the
recorder's index to 1. -/
theorem captured_indices_contiguous_witness :
    wStep0.step_index = StateCapture.init.step_index ∧
    wCap0.step_index = StateCapture.init.step_index + 1 :=
  captured_indices_contiguous.2 StateCapture.init stPlain none "" wStep0 wCap0
    rfl

/-- C4: the run status starts `in_progress` and makes exactly one terminal
transition when the orchestrator exits its loop (the status history is
exactly `[in_progress, terminal]`): `success` iff the loop exited through
the completion-signal break (after the forced final capture), `timeout` iff
the step budget was exhausted without the completion signal, `failure` iff
an unhandled error escaped the loop body; no other status is terminal. -/
theorem run_status_lifecycle :
    ∀ (inputs : List IterationInput) (t : String)
      (enhance : List Step → Option (List Step)),
      (runTask inputs t enhance).status_history
        = [TaskStatus.in_progress, (runTask inputs t enhance).status] ∧
      ((runTask inputs t enhance).status = TaskStatus.success ∨
       (runTask inputs t enhance).status = TaskStatus.timeout ∨
       (runTask inputs t enhance).status = TaskStatus.failure) ∧
      ((runTask inputs t enhance).status = TaskStatus.success ↔
        ∃ c s, runLoop inputs StateCapture.init [] 1 t = LoopExit.completed c s) ∧
      ((runTask inputs t enhance).status = TaskStatus.timeout ↔
        ∃ c s, runLoop inputs StateCapture.init [] 1 t = LoopExit.exhausted c s) ∧
      ((runTask inputs t enhance).status = TaskStatus.failure ↔
        ∃ c s, runLoop inputs StateCapture.init [] 1 t = LoopExit.raised c s) := by
  intro inputs t enhance
  obtain ⟨f1, f2, f3, f4, f5, f6, f7, f8⟩ :=
    finalize_spec (runLoop inputs StateCapture.init [] 1 t).status
      (runLoop inputs StateCapture.init [] 1 t).steps
      (runLoop inputs StateCapture.init [] 1 t).didRaise enhance
  rw [runTask_eq, f1, f7]
  cases hexit : runLoop inputs StateCapture.init [] 1 t <;>
    simp [LoopExit.status]

/-- C4 witness: a run with an empty step budget ends with the history
`[in_progress, timeout]`. -/
theorem run_status_lifecycle_witness :
    (runTask [] "" (fun _ => none)).status_history
      = [TaskStatus.in_progress, (runTask [] "" (fun _ => none)).status] :=
  (run_status_lifecycle [] "" (fun _ => none)).1

/-- C7: a failure of the tutorial-generation collaborator during the
finalize phase is swallowed: the status, the re-raise behavior, the step
count and the captured list are the same as with any non-failing
collaborator, the run record is persisted, the tutorial markdown is still
generated from the unenhanced steps, and every captured step's file remains
written. -/
theorem tutorial_failure_swallowed :
    ∀ (inputs : List IterationInput) (t : String)
      (enhance : List Step → Option (List Step)),
      (runTask inputs t (fun _ => none)).status
        = (runTask inputs t enhance).status ∧
      (runTask inputs t (fun _ => none)).raised
        = (runTask inputs t enhance).raised ∧
      (runTask inputs t (fun _ => none)).total_steps
        = (runTask inputs t enhance).total_steps ∧
      (runTask inputs t (fun _ => none)).captured
        = (runTask inputs t enhance).captured ∧
      (runTask inputs t (fun _ => none)).metadata_saved = true ∧
      (runTask inputs t (fun _ => none)).tutorial_generated = true ∧
      (runTask inputs t (fun _ => none)).steps
        = (runTask inputs t (fun _ => none)).captured ∧
      (runTask inputs t (fun _ => none)).captured
        ⊆ (runTask inputs t (fun _ => none)).saved_step_files := by
  intro inputs t enhance
  obtain ⟨g1, g2, g3, g4, g5, g6, g7, g8⟩ :=
    finalize_spec (runLoop inputs StateCapture.init [] 1 t).status
      (runLoop inputs StateCapture.init [] 1 t).steps
      (runLoop inputs StateCapture.init [] 1 t).didRaise enhance
  rw [runTask_eq inputs t (fun _ => none), runTask_eq inputs t enhance,
    finalize_fail_spec]
  simp [g1, g2, g3, g4]

/-- C7 witness: with an empty trace and a failing collaborator, the run
record is still persisted. -/
theorem tutorial_failure_swallowed_witness :
    (runTask [] "" (fun _ => none)).metadata_saved = true :=
  (tutorial_failure_swallowed [] "" (fun _ => some [])).2.2.2.2.1

/-- C3 counterexample: an approved capture of a screenshot-less state is
NOT treated as a skip-this-iteration condition — with a screenshot-less
first iteration followed by a normally completable iteration, the run
aborts: the exception propagates (`raised = true`), the status becomes
`failure` (not the `success` the remaining trace would have produced), and
nothing is captured. -/
theorem missing_screenshot_fatal_cex :
    (runTask [inpNoShot, inpDone] "t" (fun _ => none)).status
      = TaskStatus.failure ∧
    (runTask [inpNoShot, inpDone] "t" (fun _ => none)).raised = true ∧
    (runTask [inpNoShot, inpDone] "t" (fun _ => none)).captured = [] ∧
    (runTask [inpDone] "t" (fun _ => none)).status = TaskStatus.success := by
  refine ⟨by decide, by decide, by decide, by decide⟩

/-- C3 amended: on an approved capture of a screenshot-less state,
`capture_step` raises `ValueError` without incrementing the step index or
updating the previous-URL memory (the error precedes both mutations), but
the orchestrator does NOT treat the failure as skippable: at whatever
iteration of the loop it happens, the exception escapes the loop with the
previously captured step list intact, the run aborts with status `failure`
and is re-raised, while the finalize phase still persists the run record
and every previously captured step's file. -/
theorem missing_screenshot_amended :
    (∀ (self : StateCapture) (state : BrowserStateSummary)
        (act : Option ActionFromPrevious) (d : String),
      truthyOptStr state.screenshot = false →
      captureStep self state act d
        = Except.error ("No screenshot in browser state for step "
            ++ toString self.step_index)) ∧
    (∀ (inp : IterationInput) (rest : List IterationInput) (cap : StateCapture)
        (steps : List Step) (k : Nat) (t : String) (state : BrowserStateSummary),
      inp.step_ok = true → inp.observed = some state →
      truthyOptStr state.screenshot = false →
      ((k == 1) || shouldCapture cap state false false inp.last_action) = true →
      runLoop (inp :: rest) cap steps k t = LoopExit.raised cap steps) ∧
    (∀ (inputs : List IterationInput) (t : String)
        (enhance : List Step → Option (List Step)) (c : StateCapture)
        (S : List Step),
      runLoop inputs StateCapture.init [] 1 t = LoopExit.raised c S →
      (runTask inputs t enhance).status = TaskStatus.failure ∧
      (runTask inputs t enhance).raised = true ∧
      (runTask inputs t enhance).total_steps = S.length ∧
      (runTask inputs t enhance).captured = S ∧
      (runTask inputs t enhance).metadata_saved = true ∧
      S ⊆ (runTask inputs t enhance).saved_step_files) := by
  refine ⟨?_, ?_, ?_⟩
  · intro self state act d h
    exact captureStep_noshot h
  · intro inp rest cap steps k t state hok hobs hscr happ
    unfold runLoop
    simp [hok, hobs, happ, captureStep_noshot hscr]
  · intro inputs t enhance c S hloop
    obtain ⟨f1, f2, f3, f4, f5, f6, f7, f8⟩ :=
      finalize_spec (LoopExit.raised c S).status (LoopExit.raised c S).steps
        (LoopExit.raised c S).didRaise enhance
    rw [runTask_eq, hloop]
    exact ⟨f1, f4, f2, f3, f5, f8⟩

/-- C3 witness: the amended orchestrator behavior on a concrete trace whose
screenshot-less capture happens at iteration 2, after iteration 1 already
captured a step: the loop raises with that step intact, and the run ends
`failure` with the run record and the previously captured step persisted. -/
theorem missing_screenshot_amended_witness :
    runLoop [inpNoShotB] wCap0 [wStep0] 2 "t" = LoopExit.raised wCap0 [wStep0] ∧
    ((runTask [inpPlain, inpNoShotB] "t" (fun _ => none)).status
        = TaskStatus.failure ∧
     (runTask [inpPlain, inpNoShotB] "t" (fun _ => none)).raised = true ∧
     (runTask [inpPlain, inpNoShotB] "t" (fun _ => none)).total_steps
        = [wStepInit].length ∧
     (runTask [inpPlain, inpNoShotB] "t" (fun _ => none)).captured
        = [wStepInit] ∧
     (runTask [inpPlain, inpNoShotB] "t" (fun _ => none)).metadata_saved = true ∧
     [wStepInit] ⊆
       (runTask [inpPlain, inpNoShotB] "t" (fun _ => none)).saved_step_files) :=
  ⟨missing_screenshot_amended.2.1 inpNoShotB [] wCap0 [wStep0] 2 "t" stNoShotB
     rfl rfl rfl (by decide),
   missing_screenshot_amended.2.2 [inpPlain, inpNoShotB] "t" (fun _ => none)
     wCap0 [wStepInit] (by decide)⟩

/-- C8 counterexample: two consecutive iterations that observe the same
modal-bearing state (identical URL, `action = None`) are BOTH captured —
the first by the iteration-1 override, the second by the modal/dialog
heuristic — refuting the claim that the second is never captured. -/
theorem consecutive_no_action_cex :
    (runTask [inpModal, inpModal] "t" (fun _ => none)).captured.map
        (fun s => (s.step_index, s.url, s.action_from_previous))
      = [(0, stModal.url, none), (1, stModal.url, none)] := by
  decide

/-- C8 amended: two consecutive iterations with identical URL and no
classified action are never both captured, PROVIDED the second state shows
no modal/dialog indicator (and is not boundary-flagged): once the first is
captured the recorder's previous URL equals the shared URL, and the policy
then rejects the second. -/
theorem consecutive_no_action_amended :
    ∀ (self : StateCapture) (state : BrowserStateSummary),
      self.previous_url = some state.url → hasModalOrDialog state = false →
      shouldCapture self state false false none = false := by
  intro self state hp hm
  unfold shouldCapture
  simp [hp, hm]

/-- C8 witness: the policy rejects a repeat of `stPlain` after it was
captured. -/
theorem consecutive_no_action_amended_witness :
    shouldCapture { step_index := 1, previous_url := some stPlain.url } stPlain
      false false none = false :=
  consecutive_no_action_amended
    { step_index := 1, previous_url := some stPlain.url } stPlain rfl (by decide)

/-- C5 counterexample: capturing a state whose URL is the empty string
twice in a row produces a second captured step (index 1, hence not the
first) whose URL equals the previous captured step's URL, yet whose
`has_unique_url` is `True` — the source tests Python truthiness of the
previous URL, so an empty previous URL counts as unset. -/
theorem has_unique_url_cex :
    (captureStep StateCapture.init stEmptyUrl none "").map (fun p => p.2)
      = Except.ok { step_index := 1, previous_url := some "" } ∧
    (captureStep { step_index := 1, previous_url := some "" } stEmptyUrl
        none "").map (fun p => (p.1.step_index, p.1.url, p.1.has_unique_url))
      = Except.ok ((1 : Nat), "", true) := by
  refine ⟨rfl, rfl⟩

/-- C5 amended: a captured step's `has_unique_url` is `True` exactly when
this is the first captured step (previous URL unset), OR the previous
captured step's URL is the empty string (Python truthiness treats it as
unset), OR the state's URL differs from the previous captured step's URL;
the comparison is against the previous *captured* URL, which only
`capture_step` updates. -/
theorem has_unique_url_spec :
    ∀ (self : StateCapture) (state : BrowserStateSummary)
      (act : Option ActionFromPrevious) (d : String) (s : Step)
      (c' : StateCapture),
      captureStep self state act d = Except.ok (s, c') →
      (s.has_unique_url = true ↔
        (self.previous_url = none ∨ self.previous_url = some "" ∨
         ∃ p, self.previous_url = some p ∧ state.url ≠ p)) := by
  intro self state act d s c' h
  unfold captureStep at h
  cases hs : saveScreenshot state self.step_index with
  | error e => rw [hs] at h; exact absurd h (by simp)
  | ok sp =>
    rw [hs] at h
    simp only [Except.ok.injEq, Prod.mk.injEq] at h
    obtain ⟨h1, h2⟩ := h
    rw [← h1]
    rcases hp : self.previous_url with _ | p
    · simp [truthyOptStr, hp]
    · by_cases hpe : p = ""
      · subst hpe; simp [truthyOptStr, hp]
      · simp [truthyOptStr, hp, hpe]

/-- C5 witness: a capture at a changed URL records `has_unique_url = True`
through the amended characterization. -/
theorem has_unique_url_spec_witness :
    wStep5.has_unique_url = true ↔
      ((some "https://a.example" : Option String) = none ∨
       (some "https://a.example" : Option String) = some "" ∨
       ∃ p, (some "https://a.example" : Option String) = some p ∧ stB.url ≠ p) :=
  has_unique_url_spec { step_index := 1, previous_url := some "https://a.example" }
    stB none "d" wStep5 { step_index := 2, previous_url := some "https://b.example" }
    rfl

end MultiAgentBrowsing
